import Mathlib

/-!
# Shallow embedding of the openmeteo_exporter metric-mapping pipeline

This file embeds, in Lean, the parts of the `openmeteo_exporter` Go
repository that the verified claims are about:

* the configuration model and its validation (`config.go`);
* the upstream client's status handling and response post-processing
  (`client.go`, current version);
* the per-category metric mappers (`collector_weather.go`, the
  air-quality collector) and the orchestrating collector (`collector.go`).

Go dynamic values (`interface{}` holding decoded JSON) are embedded by the
inductive `Json`; a Go `map[string]interface{}` is an association list and
`mapGet` mirrors Go map indexing, which yields the `nil` interface (here
`Json.null`) for a missing key, so that a JSON `null` value and an absent
key are indistinguishable, exactly as in Go.  The pipeline only ever
inspects two levels of JSON (the top-level response object and the
`current` / `current_units` sub-objects), so response bodies are embedded
by the stratified types `Json` (scalars), `JEntry` (a value inside the
top-level object) and `JBody` (a decoded body).  A Go runtime panic (from
a failed type assertion) is made explicit: computations that can panic
return the channel sends performed before the panic together with an
`Option String` carrying the panic, or a `GoResult` in the client.
float64 values are embedded as `Rat`: the pipeline never does arithmetic
on them, it only moves them around, so exact rationals are a faithful
carrier.
-/

/-- A decoded JSON scalar / the Go `interface{}` scalars produced by
`encoding/json.Unmarshal`: numbers become `float64`, strings `string`,
booleans `bool` and `null` the nil interface (`Json.null`).  `Json.null`
also stands for the nil interface a Go map yields for an absent key. -/
inductive Json where
  | null : Json
  | num (q : Rat) : Json
  | str (s : String) : Json
  | bool (b : Bool) : Json
deriving DecidableEq, Repr

/-- A value inside a decoded top-level response object: a scalar, a
one-level object (the shape of `current` and `current_units`) or a
one-level array. -/
inductive JEntry where
  | val (v : Json) : JEntry
  | obj (fields : List (String × Json)) : JEntry
  | arr (elems : List Json) : JEntry
deriving DecidableEq, Repr

/-- A decoded JSON response body: a top-level object, a top-level array
or a bare scalar. -/
inductive JBody where
  | obj (fields : List (String × JEntry)) : JBody
  | arr (elems : List Json) : JBody
  | val (v : Json) : JBody
deriving DecidableEq, Repr

/-- Go map indexing `m[k]` on a `map[string]interface{}` holding scalars:
the zero value (the nil interface, i.e. `Json.null`) when the key is
absent. -/
def mapGet (m : List (String × Json)) (k : String) : Json :=
  match m.find? (fun p => p.1 = k) with
  | some p => p.2
  | none => Json.null

/-- Go map indexing on the decoded top-level object: the nil interface
(`JEntry.val Json.null`) when the key is absent. -/
def bareGet (m : List (String × JEntry)) (k : String) : JEntry :=
  match m.find? (fun p => p.1 = k) with
  | some p => p.2
  | none => JEntry.val Json.null

/-- Go `==` comparison between an `interface{}` value and a string
constant: true exactly when the interface holds an equal string. -/
def goEqStr (v : Json) (s : String) : Bool :=
  match v with
  | Json.str t => t = s
  | _ => false

/-- Go `fmt.Sprintf("%s", v)` on an `interface{}` value, for the cases the
weather collector can reach: a string prints as itself and the nil
interface prints as `%!s(<nil>)`.  The remaining renderings (numbers,
booleans) are abstracted by fixed tags; no claim exercises them and
nothing downstream inspects their content. -/
def goSprintfS (v : Json) : String :=
  match v with
  | Json.str s => s
  | Json.null => "%!s(<nil>)"
  | Json.num _ => "%!s(float64)"
  | Json.bool _ => "%!s(bool)"

/-- Go `strings.ToLower` restricted to ASCII case mapping.  Go applies
the full Unicode case tables, but every unit symbol this program can
meet contains no non-ASCII character with a distinct lower-case form
(`μ` is already lower case, `³` and `°` are caseless), so the ASCII map
is faithful on all reachable inputs. -/
def goCharToLower (c : Char) : Char :=
  if 'A' ≤ c ∧ c ≤ 'Z' then Char.ofNat (c.toNat + 32) else c

def goToLower (s : String) : String :=
  String.mk (s.data.map goCharToLower)

/-! ## Configuration model (config.go) -/

/-- `WeatherConfig` (config.go). -/
structure WeatherConfig where
  TemperatureUnit : String
  WindSpeedUnit : String
  PrecipitationUnit : String
  Variables : List String
deriving DecidableEq, Repr

/-- `AirQualityConfig` (config.go). -/
structure AirQualityConfig where
  Variables : List String
deriving DecidableEq, Repr

/-- `LocationConfig` (config.go).  `Weather` and `AirQuality` are pointers
in Go; `Option` embeds nil-ness.  Latitude/longitude are float64. -/
structure LocationConfig where
  Name : String
  Latitude : Rat
  Longitude : Rat
  Timezone : String
  Weather : Option WeatherConfig
  AirQuality : Option AirQualityConfig
deriving DecidableEq, Repr

/-- `Config` (config.go). -/
structure Config where
  Locations : List LocationConfig
deriving DecidableEq, Repr

/-- Key set of the `WeatherVariables` catalog map (client.go, current
version).  Only membership is consulted by validation; the description
strings feed metric help text, which no claim inspects, so they are
elided here. -/
def WeatherVariableNames : List String :=
  ["temperature_2m", "relative_humidity_2m", "dew_point_2m",
   "apparent_temperature", "pressure_msl", "surface_pressure",
   "cloud_cover", "cloud_cover_low", "cloud_cover_mid", "cloud_cover_high",
   "wind_speed_10m", "wind_speed_80m", "wind_speed_120m", "wind_speed_180m",
   "wind_direction_10m", "wind_direction_80m", "wind_direction_120m",
   "wind_direction_180m", "wind_gusts_10m", "shortwave_radiation",
   "direct_radiation", "direct_normal_irradiance", "diffuse_radiation",
   "vapour_pressure_deficit", "cape", "evapotranspiration",
   "et0_fao_evapotranspiration", "precipitation", "snowfall",
   "precipitation_probability", "rain", "showers", "weather_code",
   "snow_depth", "freezing_level_height", "visibility",
   "soil_temperature_0cm", "soil_temperature_6cm", "soil_temperature_18cm",
   "soil_temperature_54cm", "soil_moisture_0_to_1cm",
   "soil_moisture_1_to_3cm", "soil_moisture_3_to_9cm",
   "soil_moisture_9_to_27cm", "soil_moisture_27_to_81cm", "is_day"]

/-- Key set of the `AirQualityVariables` catalog map (client.go, current
version). -/
def AirQualityVariableNames : List String :=
  ["pm2_5", "pm10", "carbon_monoxide", "nitrogen_dioxide",
   "sulphur_dioxide", "ozone", "ammonia", "aerosol_optical_depth", "dust",
   "uv_index", "uv_index_clear_sky", "alder_pollen", "birch_pollen",
   "grass_pollen", "mugwort_pollen", "olive_pollen", "ragweed_pollen",
   "european_aqi", "european_aqi_pm2_5", "european_aqi_pm10",
   "european_aqi_nitrogen_dioxide", "european_aqi_ozone",
   "european_aqi_sulphur_dioxide", "us_aqi", "us_aqi_pm2_5", "us_aqi_pm10",
   "us_aqi_nitrogen_dioxide", "us_aqi_ozone", "us_aqi_sulphur_dioxide",
   "us_aqi_carbon_monoxide"]

/-- `IsValidVariable` (client.go): `GetVariableDesc` succeeds, i.e. the
name is a key of the category's catalog map (any category string other
than "weather" consults the air-quality map). -/
def IsValidVariable (category name : String) : Bool :=
  if category = "weather" then
    WeatherVariableNames.contains name
  else
    AirQualityVariableNames.contains name

def ValidTemperatureUnits : List String := ["fahrenheit", "celsius"]
def ValidWindSpeedUnits : List String := ["kmh", "mph", "ms", "kn"]
def ValidPrecipitationUnits : List String := ["mm", "inch"]

def defaultTemperatureUnit : String := "fahrenheit"
def defaultWindSpeedUnit : String := "mph"
def defaultPrecipitationUnit : String := "inch"

/-- `WeatherConfig.Validate` (config.go).  Go mutates the struct through a
pointer receiver; here the possibly-updated struct is returned.  The
source order is kept: variables are checked first, then each unit is
defaulted when blank and then checked against its accepted list. -/
def weatherConfigValidate (w : WeatherConfig) (locName : String) :
    Except String WeatherConfig :=
  if w.Variables.isEmpty then
    .error ("invalid weather config, no entries for variables: " ++ locName)
  else match w.Variables.find? (fun n => !IsValidVariable "weather" n) with
  | some bad =>
      .error ("invalid current weather variable, " ++ bad ++
        ", for location: " ++ locName)
  | none =>
    let tu := if w.TemperatureUnit.isEmpty then defaultTemperatureUnit
              else w.TemperatureUnit
    if !ValidTemperatureUnits.contains tu then
      .error ("invalid temperature_unit, " ++ tu ++ ", for location: " ++
        locName)
    else
      let wu := if w.WindSpeedUnit.isEmpty then defaultWindSpeedUnit
                else w.WindSpeedUnit
      if !ValidWindSpeedUnits.contains wu then
        .error ("invalid wind_speed_unit, " ++ wu ++ ", for location: " ++
          locName)
      else
        let pu := if w.PrecipitationUnit.isEmpty then defaultPrecipitationUnit
                  else w.PrecipitationUnit
        if !ValidPrecipitationUnits.contains pu then
          .error ("invalid precipitation_unit, " ++ pu ++
            ", for location: " ++ locName)
        else
          .ok { w with TemperatureUnit := tu, WindSpeedUnit := wu,
                       PrecipitationUnit := pu }

/-- `AirQualityConfig.Validate` (config.go). -/
def airQualityConfigValidate (a : AirQualityConfig) (locName : String) :
    Except String AirQualityConfig :=
  if a.Variables.isEmpty then
    .error ("invalid air quality config, no entries for variables: " ++
      locName)
  else match a.Variables.find? (fun n => !IsValidVariable "airquality" n) with
  | some bad =>
      .error ("invalid current air quality variable, " ++ bad ++
        ", for location: " ++ locName)
  | none => .ok a

/-- `LocationConfig.Validate` (config.go): the source order of checks is
kept — name, latitude, longitude, timezone default, weather section,
air-quality section, and finally the neither-section check. -/
def locationConfigValidate (l : LocationConfig) :
    Except String LocationConfig :=
  if l.Name.isEmpty then
    .error "invalid location, no name provided"
  else if l.Latitude = 0 then
    .error ("invalid location, no latitude provided: " ++ l.Name)
  else if l.Longitude = 0 then
    .error ("invalid location, no longitude provided: " ++ l.Name)
  else
    let tz := if l.Timezone.isEmpty then "auto" else l.Timezone
    match l.Weather with
    | some w =>
      match weatherConfigValidate w l.Name with
      | .error e => .error e
      | .ok w' =>
        match l.AirQuality with
        | some a =>
          match airQualityConfigValidate a l.Name with
          | .error e => .error e
          | .ok a' =>
              .ok { l with Timezone := tz, Weather := some w',
                           AirQuality := some a' }
        | none => .ok { l with Timezone := tz, Weather := some w' }
    | none =>
      match l.AirQuality with
      | some a =>
        match airQualityConfigValidate a l.Name with
        | .error e => .error e
        | .ok a' => .ok { l with Timezone := tz, AirQuality := some a' }
      | none =>
          .error ("invalid location, no weather or air_quality sections defined: "
            ++ l.Name)

/-- The per-location effect of `Config.Validate`'s loop body as it is
actually observable on the configuration.  The Go loop
`for _, loc := range c.Locations` validates a *copy* of each element:
writes to value fields of the copy (the timezone default) are discarded,
while writes through the `Weather`/`AirQuality` pointers land in structs
shared with the original, so the unit defaults persist. -/
def locationPersist (l : LocationConfig) (l' : LocationConfig) :
    LocationConfig :=
  { l with Weather := l'.Weather, AirQuality := l'.AirQuality }

/-- The loop of `Config.Validate` (config.go): validate each location in
order, stop at the first error, and keep only the mutations that survive
the by-value range loop (see `locationPersist`). -/
def validateLocations : List LocationConfig →
    Except String (List LocationConfig)
  | [] => .ok []
  | l :: rest =>
    match locationConfigValidate l with
    | .error e => .error e
    | .ok l' =>
      match validateLocations rest with
      | .error e => .error e
      | .ok rest' => .ok (locationPersist l l' :: rest')

/-- `Config.Validate` (config.go): rejects an empty location list,
otherwise validates each location in order and stops at the first
error. -/
def configValidate (c : Config) : Except String Config :=
  if c.Locations.isEmpty then
    .error "invalid config, no locations provided"
  else
    match validateLocations c.Locations with
    | .error e => .error e
    | .ok ls => .ok ⟨ls⟩

/-! ## Metrics, descriptors and channel events (collector.go) -/

/-- The Go constant `namespace` (collector.go); the word itself is a Lean
keyword, hence the different name. -/
def namespaceName : String := "openmeteo"

/-- `prometheus.BuildFQName` as used here: all call sites pass non-empty
components, for which it joins them with underscores. -/
def buildFQName (ns sub name : String) : String :=
  ns ++ "_" ++ sub ++ "_" ++ name

/-- A `prometheus.Desc` as far as the claims are concerned: its
fully-qualified name and its variable label names.  Help text is not
modeled (no claim inspects it). -/
structure MetricDesc where
  fqName : String
  variableLabels : List String
deriving DecidableEq, Repr

/-- `infoDesc` (collector.go). -/
def infoDesc : MetricDesc :=
  ⟨buildFQName namespaceName "location" "info",
   ["location", "latitude", "longitude", "timezone"]⟩

/-- `weatherGenerationTimeDesc` (collector.go). -/
def weatherGenerationTimeDesc : MetricDesc :=
  ⟨buildFQName namespaceName "weather" "generation_time_ms", ["location"]⟩

/-- `airqualityGenerationTimeDesc` (collector.go). -/
def airqualityGenerationTimeDesc : MetricDesc :=
  ⟨buildFQName namespaceName "airquality" "generation_time_ms", ["location"]⟩

/-- `OpenMeteoCollector.Describe` (collector.go): the descriptors sent on
the describe channel, in order. -/
def openMeteoDescribe : List MetricDesc :=
  [infoDesc, weatherGenerationTimeDesc]

/-- A constant metric as produced by `prometheus.MustNewConstMetric`: the
descriptor's fully-qualified name, the label values and the gauge value.
(All metrics produced by this program are gauges.) -/
structure Metric where
  fqName : String
  labelValues : List String
  value : Rat
deriving DecidableEq, Repr

/-- The observable per-scrape events: a metric sent on the collect
channel, a "No value for metric returned" warning naming the variable, or
a "Failed to collect ... information" warning naming the location after a
fetch error. -/
inductive Event where
  | metric (m : Metric) : Event
  | warnNoValue (name : String) : Event
  | warnFetchFailed (location : String) : Event
deriving DecidableEq, Repr

/-- `fmt.Sprintf("%f", x)`: fixed-point rendering with six decimals.
Rounding of an exact rational to six decimals is round-to-nearest with
ties rounded up; no claim depends on tie behaviour. -/
def fmtF (q : Rat) : String :=
  let n := q.num.natAbs
  let d := q.den
  let scaled := (n * 1000000 + d / 2) / d
  let ip := scaled / 1000000
  let fp := scaled % 1000000
  let fs := toString fp
  let pad := String.mk (List.replicate (6 - fs.length) '0')
  (if q < 0 then "-" else "") ++ toString ip ++ "." ++ pad ++ fs

/-! ## Response envelopes (client.go, current version) -/

/-- `ResponseUnits` (client.go): `Interval` is a string here, unlike in
`ResponseValues`. -/
structure ResponseUnits where
  Time : String
  Interval : String
  Variables : List (String × Json)
deriving DecidableEq, Repr

/-- `ResponseValues` (client.go). -/
structure ResponseValues where
  Time : String
  Interval : Int
  Variables : List (String × Json)
deriving DecidableEq, Repr

/-- `BaseResponse` (client.go).  `GenerationtimeMs` is a float32 in Go and
is cast to float64 when emitted; the cast is the identity here (no claim
depends on float32 precision). -/
structure BaseResponse where
  Latitude : Rat
  Longitude : Rat
  GenerationtimeMs : Rat
  UTCOffsetSeconds : Int
  Timezone : String
  TimezoneAbbreviation : String
  CurrentUnits : ResponseUnits
  Current : ResponseValues
deriving DecidableEq, Repr

/-- `WeatherResponse` (client.go): `BaseResponse` plus elevation. -/
structure WeatherResponse extends BaseResponse where
  Elevation : Rat
deriving DecidableEq, Repr

/-! ## Per-category mappers (collector_weather.go and the air-quality
collector) -/

/-- One iteration of the variable loop of `WeatherCollector.Collect`
(collector_weather.go:48-76): look up the unit symbol, rewrite `°F`, `°C`
and `%` — any other value is left to `fmt.Sprintf` as-is — build the
descriptor name, and emit the value if it is non-nil (a non-float64
non-nil value makes the `value.(float64)` assertion panic), else warn. -/
def weatherVarStep (locName : String) (r : WeatherResponse)
    (name : String) : List Event × Option String :=
  let units0 := mapGet r.CurrentUnits.Variables name
  let units :=
    if goEqStr units0 "°F" then "fahrenheit"
    else if goEqStr units0 "°C" then "celsius"
    else if goEqStr units0 "%" then "percent"
    else goSprintfS units0
  let fq := buildFQName namespaceName "weather" (name ++ "_" ++ units)
  match mapGet r.Current.Variables name with
  | Json.null => ([Event.warnNoValue name], none)
  | Json.num q => ([Event.metric ⟨fq, [locName], q⟩], none)
  | _ => ([], some "interface conversion: interface is not float64")

/-- The variable loop of `WeatherCollector.Collect`, over the configured
variable list in order; a panic aborts the loop, keeping the events sent
before it. -/
def mapWeatherVars (locName : String) (r : WeatherResponse) :
    List String → List Event × Option String
  | [] => ([], none)
  | n :: rest =>
    match weatherVarStep locName r n with
    | (evs, some p) => (evs, some p)
    | (evs, none) =>
      let tail := mapWeatherVars locName r rest
      (evs ++ tail.1, tail.2)

/-- `WeatherCollector.Collect` (collector_weather.go), with the upstream
fetch abstracted into its outcome.  `w` is the location's `Weather`
section, non-nil at the only call site (collector.go:71-73).  A fetch
error logs a warning and returns; a success emits the generation-time
metric and runs the variable loop. -/
def weatherCollect (loc : LocationConfig) (w : WeatherConfig)
    (outcome : Except String WeatherResponse) : List Event × Option String :=
  match outcome with
  | .error _ => ([Event.warnFetchFailed loc.Name], none)
  | .ok r =>
    let gen := Event.metric
      ⟨weatherGenerationTimeDesc.fqName, [loc.Name], r.GenerationtimeMs⟩
    let body := mapWeatherVars loc.Name r w.Variables
    (gen :: body.1, body.2)

/-- One iteration of the variable loop of `AirQualityCollector.Collect`:
the unit symbol is asserted to be a string (`.(string)` — a nil or
non-string value panics), rewritten by the `μg/m³` / `Grains/m³` table and
then lower-cased; the value is emitted if non-nil (non-float64 panics),
else warned about. -/
def airQualityVarStep (locName : String) (r : BaseResponse)
    (name : String) : List Event × Option String :=
  match mapGet r.CurrentUnits.Variables name with
  | Json.str u0 =>
    let u1 :=
      if u0 = "μg/m³" then "ug_per_m3"
      else if u0 = "Grains/m³" then "grains_per_m3"
      else u0
    let units := goToLower u1
    let fq := buildFQName namespaceName "airquality" (name ++ "_" ++ units)
    match mapGet r.Current.Variables name with
    | Json.null => ([Event.warnNoValue name], none)
    | Json.num q => ([Event.metric ⟨fq, [locName], q⟩], none)
    | _ => ([], some "interface conversion: interface is not float64")
  | _ => ([], some "interface conversion: interface is not string")

/-- The variable loop of `AirQualityCollector.Collect`, over the
configured variable list in order. -/
def mapAirQualityVars (locName : String) (r : BaseResponse) :
    List String → List Event × Option String
  | [] => ([], none)
  | n :: rest =>
    match airQualityVarStep locName r n with
    | (evs, some p) => (evs, some p)
    | (evs, none) =>
      let tail := mapAirQualityVars locName r rest
      (evs ++ tail.1, tail.2)

/-- `AirQualityCollector.Collect`, with the fetch abstracted into its
outcome; `a` is the location's `AirQuality` section, non-nil at the only
call site (collector.go:76-78). -/
def airQualityCollect (loc : LocationConfig) (a : AirQualityConfig)
    (outcome : Except String BaseResponse) : List Event × Option String :=
  match outcome with
  | .error _ => ([Event.warnFetchFailed loc.Name], none)
  | .ok r =>
    let gen := Event.metric
      ⟨airqualityGenerationTimeDesc.fqName, [loc.Name], r.GenerationtimeMs⟩
    let body := mapAirQualityVars loc.Name r a.Variables
    (gen :: body.1, body.2)

/-- The body of `OpenMeteoCollector.Collect`'s location loop
(collector.go:60-79): send the location-info gauge, then run the weather
collector if a weather section is configured, then the air-quality
collector if one is configured.  A panic escapes the loop body. -/
def locCollect (fetchW : LocationConfig → Except String WeatherResponse)
    (fetchA : LocationConfig → Except String BaseResponse)
    (loc : LocationConfig) : List Event × Option String :=
  let info := Event.metric
    ⟨infoDesc.fqName,
     [loc.Name, fmtF loc.Latitude, fmtF loc.Longitude, loc.Timezone], 1⟩
  let wres :=
    match loc.Weather with
    | some w => weatherCollect loc w (fetchW loc)
    | none => ([], none)
  match wres with
  | (evs, some p) => (info :: evs, some p)
  | (evs, none) =>
    let ares :=
      match loc.AirQuality with
      | some a => airQualityCollect loc a (fetchA loc)
      | none => ([], none)
    (info :: (evs ++ ares.1), ares.2)

/-- `OpenMeteoCollector.Collect` (collector.go:59-81): the location loop,
with the client abstracted into per-location fetch outcomes.  The
function has no return value in Go; an unrecovered panic is the only way
it can fail, and it aborts the remaining locations. -/
def openMeteoCollect (locs : List LocationConfig)
    (fetchW : LocationConfig → Except String WeatherResponse)
    (fetchA : LocationConfig → Except String BaseResponse) :
    List Event × Option String :=
  match locs with
  | [] => ([], none)
  | loc :: rest =>
    match locCollect fetchW fetchA loc with
    | (evs, some p) => (evs, some p)
    | (evs, none) =>
      let tail := openMeteoCollect rest fetchW fetchA
      (evs ++ tail.1, tail.2)

/-! ## Upstream client (client.go, current version) -/

/-- The three ways a Go client call can end: a value with nil error, a
non-nil error, or a runtime panic (`crash`). -/
inductive GoResult (α : Type) where
  | ok (a : α) : GoResult α
  | err (msg : String) : GoResult α
  | crash (msg : String) : GoResult α
deriving DecidableEq, Repr

/-- The message of `ErrNon2XXResponse` (client.go). -/
def ErrNon2XXResponse : String := "received non-2XX status"

/-- `OpenMeteoClient.doRequest` (client.go:177-198) after the transport
succeeded and the body was read: statuses at or above 400 return
`ErrNon2XXResponse`, every other status hands the body onward. -/
def doRequest {β : Type} (statusCode : Nat) (body : β) : Except String β :=
  if 400 ≤ statusCode then .error ErrNon2XXResponse else .ok body

/-- Decode one float64 struct field from the generic map: an absent field
or JSON null leaves the zero value, a number is taken, anything else is
an unmarshal type error. -/
def decodeFloatField (bare : List (String × JEntry)) (k : String) :
    Except String Rat :=
  match bareGet bare k with
  | JEntry.val Json.null => .ok 0
  | JEntry.val (Json.num q) => .ok q
  | _ => .error ("json: cannot unmarshal field " ++ k ++ " into float64")

/-- Decode one int struct field: absent/null is zero, an integral number
is taken, anything else errors. -/
def decodeIntField (bare : List (String × JEntry)) (k : String) :
    Except String Int :=
  match bareGet bare k with
  | JEntry.val Json.null => .ok 0
  | JEntry.val (Json.num q) =>
    if q.den = 1 then .ok q.num
    else .error ("json: cannot unmarshal field " ++ k ++ " into int")
  | _ => .error ("json: cannot unmarshal field " ++ k ++ " into int")

/-- Decode one string struct field. -/
def decodeStringField (bare : List (String × JEntry)) (k : String) :
    Except String String :=
  match bareGet bare k with
  | JEntry.val Json.null => .ok ""
  | JEntry.val (Json.str s) => .ok s
  | _ => .error ("json: cannot unmarshal field " ++ k ++ " into string")

/-- Decode a string field of an inner (`current`/`current_units`)
object. -/
def innerStringField (m : List (String × Json)) (k : String) :
    Except String String :=
  match mapGet m k with
  | Json.null => .ok ""
  | Json.str s => .ok s
  | _ => .error ("json: cannot unmarshal field " ++ k ++ " into string")

/-- Decode an int field of an inner object. -/
def innerIntField (m : List (String × Json)) (k : String) :
    Except String Int :=
  match mapGet m k with
  | Json.null => .ok 0
  | Json.num q =>
    if q.den = 1 then .ok q.num
    else .error ("json: cannot unmarshal field " ++ k ++ " into int")
  | _ => .error ("json: cannot unmarshal field " ++ k ++ " into int")

/-- Decode the `current_units` struct field (`ResponseUnits`): absent or
null leaves the zero struct, an object has its `time`/`interval` fields
type-checked (the untagged `Variables` map stays nil — it is rebuilt
afterwards anyway), anything else is an unmarshal type error. -/
def decodeUnitsField (bare : List (String × JEntry)) :
    Except String ResponseUnits :=
  match bareGet bare "current_units" with
  | JEntry.val Json.null => .ok ⟨"", "", []⟩
  | JEntry.obj m =>
    match innerStringField m "time" with
    | .error e => .error e
    | .ok t =>
      match innerStringField m "interval" with
      | .error e => .error e
      | .ok i => .ok ⟨t, i, []⟩
  | _ => .error "json: cannot unmarshal field current_units into struct"

/-- Decode the `current` struct field (`ResponseValues`); its `interval`
is an int. -/
def decodeValuesField (bare : List (String × JEntry)) :
    Except String ResponseValues :=
  match bareGet bare "current" with
  | JEntry.val Json.null => .ok ⟨"", 0, []⟩
  | JEntry.obj m =>
    match innerStringField m "time" with
    | .error e => .error e
    | .ok t =>
      match innerIntField m "interval" with
      | .error e => .error e
      | .ok i => .ok ⟨t, i, []⟩
  | _ => .error "json: cannot unmarshal field current into struct"

/-- The second, strongly-typed `json.Unmarshal` of `GetWeather`
(client.go): field-by-field decode of `WeatherResponse`.  It succeeds
exactly when every tagged field of the body has a compatible type; Go
reports the first offending field in input order while this model checks
in struct order, a difference only in which message is produced, never in
whether an error is produced. -/
def decodeWeatherTyped (bare : List (String × JEntry)) :
    Except String WeatherResponse :=
  match decodeFloatField bare "latitude" with
  | .error e => .error e
  | .ok lat =>
  match decodeFloatField bare "longitude" with
  | .error e => .error e
  | .ok lon =>
  match decodeFloatField bare "generationtime_ms" with
  | .error e => .error e
  | .ok gen =>
  match decodeIntField bare "utc_offset_seconds" with
  | .error e => .error e
  | .ok utc =>
  match decodeStringField bare "timezone" with
  | .error e => .error e
  | .ok tz =>
  match decodeStringField bare "timezone_abbreviation" with
  | .error e => .error e
  | .ok tza =>
  match decodeUnitsField bare with
  | .error e => .error e
  | .ok cu =>
  match decodeValuesField bare with
  | .error e => .error e
  | .ok cv =>
  match decodeFloatField bare "elevation" with
  | .error e => .error e
  | .ok elev => .ok ⟨⟨lat, lon, gen, utc, tz, tza, cu, cv⟩, elev⟩

/-- The strongly-typed `json.Unmarshal` of `GetAirQuality`
(`BaseResponse`, no elevation). -/
def decodeBaseTyped (bare : List (String × JEntry)) :
    Except String BaseResponse :=
  match decodeFloatField bare "latitude" with
  | .error e => .error e
  | .ok lat =>
  match decodeFloatField bare "longitude" with
  | .error e => .error e
  | .ok lon =>
  match decodeFloatField bare "generationtime_ms" with
  | .error e => .error e
  | .ok gen =>
  match decodeIntField bare "utc_offset_seconds" with
  | .error e => .error e
  | .ok utc =>
  match decodeStringField bare "timezone" with
  | .error e => .error e
  | .ok tz =>
  match decodeStringField bare "timezone_abbreviation" with
  | .error e => .error e
  | .ok tza =>
  match decodeUnitsField bare with
  | .error e => .error e
  | .ok cu =>
  match decodeValuesField bare with
  | .error e => .error e
  | .ok cv => .ok ⟨lat, lon, gen, utc, tz, tza, cu, cv⟩

/-- The flattening loop shared textually by `GetWeather` and
`GetAirQuality` (client.go:247-255 / 289-297): iterate the entries of
`bareResp["current"]`, skip `time`/`interval`, and for every other entry
store the value and the unit looked up in
`bareResp["current_units"].(map[string]interface{})` — an assertion that
panics when `current_units` is absent (nil) or not a map, which is only
reached if at least one non-omitted entry exists.  Go iterates the map in
unspecified order; the entry list order stands in for one such order, and
only lookups are performed downstream. -/
def flattenCurrent (bare : List (String × JEntry)) :
    List (String × Json) →
    Except String (List (String × Json) × List (String × Json))
  | [] => .ok ([], [])
  | (name, value) :: rest =>
    if name = "time" ∨ name = "interval" then flattenCurrent bare rest
    else
      match bareGet bare "current_units" with
      | JEntry.obj mu =>
        match flattenCurrent bare rest with
        | .error e => .error e
        | .ok (vals, units) =>
          .ok ((name, value) :: vals, (name, mapGet mu name) :: units)
      | _ => .error "interface conversion: interface is not map"

/-- `OpenMeteoClient.GetWeather` (client.go:213-258) from the decoded
body onward: both unmarshals, then the unchecked
`bareResp["current"].(map[string]interface{})` assertion — a panic when
`current` is absent (nil) or not a map — then the flattening loop, whose
own assertion failure is also a panic. -/
def getWeatherFromBare (bare : List (String × JEntry)) :
    GoResult WeatherResponse :=
  match decodeWeatherTyped bare with
  | .error e => .err e
  | .ok resp =>
    match bareGet bare "current" with
    | JEntry.obj m =>
      match flattenCurrent bare m with
      | .error pmsg => .crash pmsg
      | .ok (vals, units) =>
          .ok { resp with
                toBaseResponse := { resp.toBaseResponse with
                  Current := { resp.Current with Variables := vals },
                  CurrentUnits := { resp.CurrentUnits with
                    Variables := units } } }
    | _ => .crash "interface conversion: interface is not map"

/-- `OpenMeteoClient.GetAirQuality` (client.go:260-300) from the decoded
body onward; identical post-processing on `BaseResponse`. -/
def getAirQualityFromBare (bare : List (String × JEntry)) :
    GoResult BaseResponse :=
  match decodeBaseTyped bare with
  | .error e => .err e
  | .ok resp =>
    match bareGet bare "current" with
    | JEntry.obj m =>
      match flattenCurrent bare m with
      | .error pmsg => .crash pmsg
      | .ok (vals, units) =>
          .ok { resp with
                Current := { resp.Current with Variables := vals },
                CurrentUnits := { resp.CurrentUnits with
                  Variables := units } }
    | _ => .crash "interface conversion: interface is not map"

/-- `GetWeather` from the HTTP exchange onward: `doRequest` status
handling, then the generic unmarshal into `map[string]interface{}` (an
object decodes to its field map, a JSON `null` body leaves the map nil so
that every lookup yields the nil interface, any other body is an
unmarshal error), then `getWeatherFromBare`. -/
def getWeatherHttp (statusCode : Nat) (body : JBody) :
    GoResult WeatherResponse :=
  match doRequest statusCode body with
  | .error e => .err e
  | .ok b =>
    match b with
    | JBody.obj bare => getWeatherFromBare bare
    | JBody.val Json.null => getWeatherFromBare []
    | _ => .err "json: cannot unmarshal body into map"

/-- `GetAirQuality` from the HTTP exchange onward. -/
def getAirQualityHttp (statusCode : Nat) (body : JBody) :
    GoResult BaseResponse :=
  match doRequest statusCode body with
  | .error e => .err e
  | .ok b =>
    match b with
    | JBody.obj bare => getAirQualityFromBare bare
    | JBody.val Json.null => getAirQualityFromBare []
    | _ => .err "json: cannot unmarshal body into map"

/-! ## Shared helpers for the theorems -/

/-- Whether an `Except` is an error. -/
def isError {α : Type} : Except String α → Bool
  | .error _ => true
  | .ok _ => false

/-- A dynamically-typed value a mapper can emit or skip without
panicking: a float64 or the nil interface. -/
def numOrNull : Json → Bool
  | Json.num _ => true
  | Json.null => true
  | _ => false

/-- Well-typedness of a weather response with respect to a requested
variable list: every requested value is a float64 or nil. -/
def weatherWfVars (r : WeatherResponse) (vars : List String) : Bool :=
  vars.all (fun n => numOrNull (mapGet r.Current.Variables n))

/-- Well-typedness of an air-quality response with respect to a requested
variable list: every requested unit is a string and every requested value
is a float64 or nil. -/
def airQualityWfVars (r : BaseResponse) (vars : List String) : Bool :=
  vars.all (fun n =>
    (match mapGet r.CurrentUnits.Variables n with
     | Json.str _ => true
     | _ => false) &&
    numOrNull (mapGet r.Current.Variables n))

/-- Well-typedness of one weather fetch outcome relative to its location:
an error, an unconfigured section, or a well-typed response. -/
def wOutcomeWf (loc : LocationConfig)
    (out : Except String WeatherResponse) : Bool :=
  match loc.Weather, out with
  | some w, .ok r => weatherWfVars r w.Variables
  | _, _ => true

/-- Well-typedness of one air-quality fetch outcome relative to its
location. -/
def aOutcomeWf (loc : LocationConfig)
    (out : Except String BaseResponse) : Bool :=
  match loc.AirQuality, out with
  | some a, .ok r => airQualityWfVars r a.Variables
  | _, _ => true

/-- The pure (panic-free) event sequence one location contributes to a
scrape: its location-info gauge, then — per configured category — either
the fetch-failure warning or the generation-time metric followed by the
per-variable events in configured order. -/
def locEventsSpec (fetchW : LocationConfig → Except String WeatherResponse)
    (fetchA : LocationConfig → Except String BaseResponse)
    (loc : LocationConfig) : List Event :=
  Event.metric ⟨infoDesc.fqName,
    [loc.Name, fmtF loc.Latitude, fmtF loc.Longitude, loc.Timezone], 1⟩ ::
  ((match loc.Weather with
    | some w =>
      match fetchW loc with
      | .error _ => [Event.warnFetchFailed loc.Name]
      | .ok r =>
        Event.metric ⟨weatherGenerationTimeDesc.fqName, [loc.Name],
          r.GenerationtimeMs⟩ ::
        (w.Variables.map
          (fun n => (weatherVarStep loc.Name r n).1)).flatten
    | none => []) ++
   (match loc.AirQuality with
    | some a =>
      match fetchA loc with
      | .error _ => [Event.warnFetchFailed loc.Name]
      | .ok r =>
        Event.metric ⟨airqualityGenerationTimeDesc.fqName, [loc.Name],
          r.GenerationtimeMs⟩ ::
        (a.Variables.map
          (fun n => (airQualityVarStep loc.Name r n).1)).flatten
    | none => []))

/-- The metrics among a list of events, in order. -/
def metricsOf (evs : List Event) : List Metric :=
  evs.filterMap (fun e =>
    match e with
    | Event.metric m => some m
    | _ => none)

theorem weatherVarStep_no_panic (locName : String) (r : WeatherResponse)
    (n : String) (h : numOrNull (mapGet r.Current.Variables n) = true) :
    (weatherVarStep locName r n).2 = none := by
  unfold weatherVarStep
  unfold numOrNull at h
  cases hv : mapGet r.Current.Variables n <;> simp [hv] at h ⊢

theorem airQualityVarStep_no_panic (locName : String) (r : BaseResponse)
    (n : String)
    (hu : (match mapGet r.CurrentUnits.Variables n with
           | Json.str _ => true
           | _ => false) = true)
    (h : numOrNull (mapGet r.Current.Variables n) = true) :
    (airQualityVarStep locName r n).2 = none := by
  unfold airQualityVarStep
  unfold numOrNull at h
  cases hu2 : mapGet r.CurrentUnits.Variables n <;> simp [hu2] at hu ⊢
  cases hv : mapGet r.Current.Variables n <;> simp [hv] at h ⊢

theorem mapWeatherVars_wf (locName : String) (r : WeatherResponse) :
    ∀ vars : List String, weatherWfVars r vars = true →
    mapWeatherVars locName r vars =
      ((vars.map (fun n => (weatherVarStep locName r n).1)).flatten, none) := by
  intro vars
  induction vars with
  | nil => intro _; rfl
  | cons n rest ih =>
    intro h
    unfold weatherWfVars at h
    simp only [List.all_cons, Bool.and_eq_true] at h
    have hstep := weatherVarStep_no_panic locName r n h.1
    have htail := ih (by unfold weatherWfVars; exact h.2)
    unfold mapWeatherVars
    cases hs : weatherVarStep locName r n with
    | mk evs p =>
      cases p with
      | some m => rw [hs] at hstep; simp at hstep
      | none => simp [hs, htail]

theorem mapAirQualityVars_wf (locName : String) (r : BaseResponse) :
    ∀ vars : List String, airQualityWfVars r vars = true →
    mapAirQualityVars locName r vars =
      ((vars.map (fun n => (airQualityVarStep locName r n).1)).flatten,
       none) := by
  intro vars
  induction vars with
  | nil => intro _; rfl
  | cons n rest ih =>
    intro h
    unfold airQualityWfVars at h
    simp only [List.all_cons, Bool.and_eq_true] at h
    have hstep := airQualityVarStep_no_panic locName r n h.1.1 h.1.2
    have htail := ih (by unfold airQualityWfVars; exact h.2)
    unfold mapAirQualityVars
    cases hs : airQualityVarStep locName r n with
    | mk evs p =>
      cases p with
      | some m => rw [hs] at hstep; simp at hstep
      | none => simp [hs, htail]

theorem locCollect_wf (fetchW : LocationConfig → Except String WeatherResponse)
    (fetchA : LocationConfig → Except String BaseResponse)
    (loc : LocationConfig)
    (hW : wOutcomeWf loc (fetchW loc) = true)
    (hA : aOutcomeWf loc (fetchA loc) = true) :
    locCollect fetchW fetchA loc = (locEventsSpec fetchW fetchA loc, none) := by
  unfold locCollect locEventsSpec
  unfold wOutcomeWf at hW
  unfold aOutcomeWf at hA
  cases hw : loc.Weather with
  | none =>
    cases ha : loc.AirQuality with
    | none => simp
    | some a =>
      cases hfa : fetchA loc with
      | error e => simp [airQualityCollect]
      | ok r =>
        rw [ha, hfa] at hA
        simp [airQualityCollect, mapAirQualityVars_wf loc.Name r a.Variables hA]
  | some w =>
    cases hfw : fetchW loc with
    | error e =>
      cases ha : loc.AirQuality with
      | none => simp [weatherCollect]
      | some a =>
        cases hfa : fetchA loc with
        | error e2 => simp [weatherCollect, airQualityCollect]
        | ok r =>
          rw [ha, hfa] at hA
          simp [weatherCollect, airQualityCollect,
            mapAirQualityVars_wf loc.Name r a.Variables hA]
    | ok r =>
      rw [hw, hfw] at hW
      cases ha : loc.AirQuality with
      | none =>
        simp [weatherCollect, mapWeatherVars_wf loc.Name r w.Variables hW]
      | some a =>
        cases hfa : fetchA loc with
        | error e2 =>
          simp [weatherCollect, airQualityCollect,
            mapWeatherVars_wf loc.Name r w.Variables hW]
        | ok r2 =>
          rw [ha, hfa] at hA
          simp [weatherCollect, airQualityCollect,
            mapWeatherVars_wf loc.Name r w.Variables hW,
            mapAirQualityVars_wf loc.Name r2 a.Variables hA]

theorem openMeteoCollect_wf
    (fetchW : LocationConfig → Except String WeatherResponse)
    (fetchA : LocationConfig → Except String BaseResponse) :
    ∀ locs : List LocationConfig,
    (∀ loc ∈ locs, wOutcomeWf loc (fetchW loc) = true) →
    (∀ loc ∈ locs, aOutcomeWf loc (fetchA loc) = true) →
    openMeteoCollect locs fetchW fetchA =
      ((locs.map (locEventsSpec fetchW fetchA)).flatten, none) := by
  intro locs
  induction locs with
  | nil => intro _ _; rfl
  | cons loc rest ih =>
    intro hW hA
    have hhead := locCollect_wf fetchW fetchA loc
      (hW loc (List.mem_cons_self loc rest))
      (hA loc (List.mem_cons_self loc rest))
    have htail := ih
      (fun l hl => hW l (List.mem_cons_of_mem loc hl))
      (fun l hl => hA l (List.mem_cons_of_mem loc hl))
    unfold openMeteoCollect
    rw [hhead]
    simp [htail]

/-- C1: one Collect pass over any configured locations and any
per-location fetch outcomes (whose successful responses are well-typed)
never returns an overall error, decomposes into the per-location event
sequences — so a fetch failure for one location or category degrades into
that category's fetch warning alone, without disturbing the other
category of the same location or any later location — and sends the
location-info gauge with value 1 and the location/latitude/longitude/
timezone label values for every configured location. -/
theorem c1_collect_failure_isolation
    (locs : List LocationConfig)
    (fetchW : LocationConfig → Except String WeatherResponse)
    (fetchA : LocationConfig → Except String BaseResponse)
    (hW : ∀ loc ∈ locs, wOutcomeWf loc (fetchW loc) = true)
    (hA : ∀ loc ∈ locs, aOutcomeWf loc (fetchA loc) = true) :
    (openMeteoCollect locs fetchW fetchA).2 = none ∧
    (openMeteoCollect locs fetchW fetchA).1 =
      (locs.map (locEventsSpec fetchW fetchA)).flatten ∧
    ∀ loc ∈ locs,
      Event.metric ⟨infoDesc.fqName,
        [loc.Name, fmtF loc.Latitude, fmtF loc.Longitude, loc.Timezone],
        1⟩ ∈ (openMeteoCollect locs fetchW fetchA).1 := by
  have h := openMeteoCollect_wf fetchW fetchA locs hW hA
  refine ⟨by rw [h], by rw [h], ?_⟩
  intro loc hloc
  rw [h]
  refine List.mem_flatten.mpr ⟨locEventsSpec fetchW fetchA loc, ?_, ?_⟩
  · exact List.mem_map_of_mem (locEventsSpec fetchW fetchA) hloc
  · unfold locEventsSpec
    exact List.mem_cons_self _ _

def c1wA : WeatherConfig := ⟨"fahrenheit", "mph", "inch", ["temperature_2m"]⟩
def c1aA : AirQualityConfig := ⟨["pm10"]⟩
def c1LocA : LocationConfig := ⟨"A", 1, 2, "auto", some c1wA, some c1aA⟩
def c1LocB : LocationConfig :=
  ⟨"B", 3, 4, "auto", some ⟨"celsius", "kmh", "mm", ["temperature_2m"]⟩, none⟩
def c1Locs : List LocationConfig := [c1LocA, c1LocB]

def c1RespB : WeatherResponse :=
  ⟨⟨0, 0, 2, 0, "", "",
    ⟨"", "", [("temperature_2m", Json.str "°C")]⟩,
    ⟨"", 0, [("temperature_2m", Json.num 55)]⟩⟩, 0⟩

def c1RespAq : BaseResponse :=
  ⟨0, 0, 4, 0, "", "",
   ⟨"", "", [("pm10", Json.str "μg/m³")]⟩,
   ⟨"", 0, [("pm10", Json.num 12)]⟩⟩

/-- Fetch outcomes for the C1 witness: the weather fetch fails for
location A and succeeds for B, the air-quality fetch succeeds for A. -/
def c1FetchW (loc : LocationConfig) : Except String WeatherResponse :=
  if loc.Name = "A" then .error "received non-2XX status" else .ok c1RespB

def c1FetchA (loc : LocationConfig) : Except String BaseResponse :=
  if loc.Name = "A" then .ok c1RespAq else .error "unreached"

theorem c1_collect_failure_isolation_witness :
    (openMeteoCollect c1Locs c1FetchW c1FetchA).2 = none ∧
    Event.metric ⟨"openmeteo_location_info",
      ["A", "1.000000", "2.000000", "auto"], 1⟩ ∈
      (openMeteoCollect c1Locs c1FetchW c1FetchA).1 ∧
    Event.metric ⟨"openmeteo_location_info",
      ["B", "3.000000", "4.000000", "auto"], 1⟩ ∈
      (openMeteoCollect c1Locs c1FetchW c1FetchA).1 ∧
    Event.warnFetchFailed "A" ∈ (openMeteoCollect c1Locs c1FetchW c1FetchA).1 ∧
    Event.metric ⟨"openmeteo_airquality_pm10_ug_per_m3", ["A"], 12⟩ ∈
      (openMeteoCollect c1Locs c1FetchW c1FetchA).1 ∧
    Event.metric ⟨"openmeteo_weather_temperature_2m_celsius", ["B"], 55⟩ ∈
      (openMeteoCollect c1Locs c1FetchW c1FetchA).1 := by
  have h := c1_collect_failure_isolation c1Locs c1FetchW c1FetchA
    (by decide) (by decide)
  refine ⟨h.1, ?_, ?_, ?_, ?_, ?_⟩ <;> decide

def c2W : WeatherConfig := ⟨"fahrenheit", "mph", "inch", ["surface_pressure"]⟩
def c2Loc : LocationConfig := ⟨"X", 1, 2, "auto", some c2W, none⟩

/-- A weather response whose unit symbol for `surface_pressure` is
`hPa`. -/
def c2Resp : WeatherResponse :=
  ⟨⟨0, 0, 5, 0, "", "",
    ⟨"", "", [("surface_pressure", Json.str "hPa")]⟩,
    ⟨"", 0, [("surface_pressure", Json.num 1000)]⟩⟩, 0⟩

/-- C2, counterexample: the weather mapper does not lower-case unit
symbols outside its three-entry table — the metric emitted for a
`surface_pressure` value with unit `hPa` is named
`openmeteo_weather_surface_pressure_hPa`, and no metric with the
claimed lower-cased name `openmeteo_weather_surface_pressure_hpa` is
emitted. -/
theorem c2_unit_canonicalization_cex :
    (weatherCollect c2Loc c2W (Except.ok c2Resp)).1 =
      [Event.metric ⟨"openmeteo_weather_generation_time_ms", ["X"], 5⟩,
       Event.metric ⟨"openmeteo_weather_surface_pressure_hPa", ["X"], 1000⟩] ∧
    Event.metric ⟨"openmeteo_weather_surface_pressure_hpa", ["X"], 1000⟩ ∉
      (weatherCollect c2Loc c2W (Except.ok c2Resp)).1 := by
  decide

/-- The unit canonicalization the weather mapper actually applies
(collector_weather.go:50-56): the three-entry table, no lower-casing. -/
def weatherUnitCanon (u : String) : String :=
  if u = "°F" then "fahrenheit"
  else if u = "°C" then "celsius"
  else if u = "%" then "percent"
  else u

/-- The unit canonicalization the air-quality mapper actually applies:
the two-entry table, then lower-casing. -/
def airQualityUnitCanon (u : String) : String :=
  goToLower (if u = "μg/m³" then "ug_per_m3"
             else if u = "Grains/m³" then "grains_per_m3"
             else u)

/-- C2, amended: the two mappers canonicalize differently.  For a
requested variable whose unit symbol is the string `u` and whose value is
numeric, the weather mapper emits the metric named
`{namespace}_weather_{variable}_{t(u)}` where `t` maps `°F`/`°C`/`%` to
`fahrenheit`/`celsius`/`percent` and leaves every other symbol unchanged
(no lower-casing), while the air-quality mapper emits
`{namespace}_airquality_{variable}_{t2(u)}` where `t2` maps `μg/m³` to
`ug_per_m3` and `Grains/m³` to `grains_per_m3` and lower-cases the
result. -/
theorem c2_unit_canonicalization_amended (locName : String)
    (rW : WeatherResponse) (rA : BaseResponse) (name u : String) (q : Rat)
    (hwU : mapGet rW.CurrentUnits.Variables name = Json.str u)
    (hwV : mapGet rW.Current.Variables name = Json.num q)
    (haU : mapGet rA.CurrentUnits.Variables name = Json.str u)
    (haV : mapGet rA.Current.Variables name = Json.num q) :
    weatherVarStep locName rW name =
      ([Event.metric ⟨buildFQName namespaceName "weather"
         (name ++ "_" ++ weatherUnitCanon u), [locName], q⟩], none) ∧
    airQualityVarStep locName rA name =
      ([Event.metric ⟨buildFQName namespaceName "airquality"
         (name ++ "_" ++ airQualityUnitCanon u), [locName], q⟩], none) := by
  constructor
  · unfold weatherVarStep weatherUnitCanon
    rw [hwU, hwV]
    unfold goEqStr goSprintfS
    by_cases h1 : u = "°F"
    · simp [h1]
    · by_cases h2 : u = "°C"
      · simp [h1, h2]
      · by_cases h3 : u = "%"
        · simp [h1, h2, h3]
        · simp [h1, h2, h3]
  · unfold airQualityVarStep airQualityUnitCanon
    rw [haU, haV]

def c2RespAq : BaseResponse :=
  ⟨0, 0, 1, 0, "", "",
   ⟨"", "", [("surface_pressure", Json.str "hPa")]⟩,
   ⟨"", 0, [("surface_pressure", Json.num 1000)]⟩⟩

theorem c2_unit_canonicalization_amended_witness :
    weatherVarStep "X" c2Resp "surface_pressure" =
      ([Event.metric ⟨buildFQName namespaceName "weather"
         ("surface_pressure" ++ "_" ++ weatherUnitCanon "hPa"), ["X"],
         1000⟩], none) ∧
    airQualityVarStep "X" c2RespAq "surface_pressure" =
      ([Event.metric ⟨buildFQName namespaceName "airquality"
         ("surface_pressure" ++ "_" ++ airQualityUnitCanon "hPa"), ["X"],
         1000⟩], none) :=
  c2_unit_canonicalization_amended "X" c2Resp c2RespAq "surface_pressure"
    "hPa" 1000 (by decide) (by decide) (by decide) (by decide)

theorem weatherVarStep_shape (locName : String) (rW : WeatherResponse)
    (n : String) (h : numOrNull (mapGet rW.Current.Variables n) = true) :
    weatherVarStep locName rW n = ([Event.warnNoValue n], none) ∨
    ∃ m : Metric, weatherVarStep locName rW n = ([Event.metric m], none) := by
  unfold weatherVarStep
  unfold numOrNull at h
  cases hv : mapGet rW.Current.Variables n <;> rw [hv] at h <;>
    simp at h ⊢

theorem airQualityVarStep_shape (locName : String) (rA : BaseResponse)
    (n : String)
    (hu : (match mapGet rA.CurrentUnits.Variables n with
           | Json.str _ => true
           | _ => false) = true)
    (h : numOrNull (mapGet rA.Current.Variables n) = true) :
    airQualityVarStep locName rA n = ([Event.warnNoValue n], none) ∨
    ∃ m : Metric,
      airQualityVarStep locName rA n = ([Event.metric m], none) := by
  unfold airQualityVarStep
  cases hu2 : mapGet rA.CurrentUnits.Variables n <;> rw [hu2] at hu <;>
    simp at hu ⊢
  unfold numOrNull at h
  cases hv : mapGet rA.Current.Variables n <;> rw [hv] at h <;>
    simp at h ⊢

theorem mapWeatherVars_metrics (locName : String) (rW : WeatherResponse) :
    ∀ vars : List String, weatherWfVars rW vars = true →
    metricsOf (mapWeatherVars locName rW vars).1 =
      vars.filterMap
        (fun n => (metricsOf (weatherVarStep locName rW n).1).head?) := by
  intro vars
  induction vars with
  | nil => intro _; rfl
  | cons n rest ih =>
    intro h
    unfold weatherWfVars at h
    simp only [List.all_cons, Bool.and_eq_true] at h
    have htail := ih (by unfold weatherWfVars; exact h.2)
    unfold mapWeatherVars
    rcases weatherVarStep_shape locName rW n h.1 with hs | ⟨m, hs⟩ <;>
      rw [hs] <;>
      simp only [List.filterMap_cons] <;>
      unfold metricsOf at htail ⊢ <;>
      simp [List.filterMap_append, htail, hs]

theorem mapAirQualityVars_metrics (locName : String) (rA : BaseResponse) :
    ∀ vars : List String, airQualityWfVars rA vars = true →
    metricsOf (mapAirQualityVars locName rA vars).1 =
      vars.filterMap
        (fun n => (metricsOf (airQualityVarStep locName rA n).1).head?) := by
  intro vars
  induction vars with
  | nil => intro _; rfl
  | cons n rest ih =>
    intro h
    unfold airQualityWfVars at h
    simp only [List.all_cons, Bool.and_eq_true] at h
    have htail := ih (by unfold airQualityWfVars; exact h.2)
    unfold mapAirQualityVars
    rcases airQualityVarStep_shape locName rA n h.1.1 h.1.2 with hs | ⟨m, hs⟩ <;>
      rw [hs] <;>
      simp only [List.filterMap_cons] <;>
      unfold metricsOf at htail ⊢ <;>
      simp [List.filterMap_append, htail, hs]

theorem weatherVarStep_congr (locName n : String)
    (rW rW2 : WeatherResponse)
    (hv : mapGet rW.Current.Variables n = mapGet rW2.Current.Variables n)
    (hu : mapGet rW.CurrentUnits.Variables n =
          mapGet rW2.CurrentUnits.Variables n) :
    weatherVarStep locName rW n = weatherVarStep locName rW2 n := by
  unfold weatherVarStep
  rw [hv, hu]

theorem airQualityVarStep_congr (locName n : String)
    (rA rA2 : BaseResponse)
    (hv : mapGet rA.Current.Variables n = mapGet rA2.Current.Variables n)
    (hu : mapGet rA.CurrentUnits.Variables n =
          mapGet rA2.CurrentUnits.Variables n) :
    airQualityVarStep locName rA n = airQualityVarStep locName rA2 n := by
  unfold airQualityVarStep
  rw [hv, hu]

/-- C3: under well-typed inputs, the metric observations each mapper
emits are exactly the configured variable list's per-variable
observations in configured order (`filterMap` keeps list order, so the
observation of variable `i` precedes that of variable `j` whenever
`i < j` in the configuration); and the mappers' entire output is
invariant under any change of the response maps' internal entry order
(anything preserving the key lookups), so the iteration order of the
response's value map cannot influence the emission order. -/
theorem c3_emission_order (locName : String)
    (rW rW2 : WeatherResponse) (rA rA2 : BaseResponse)
    (varsW varsA : List String)
    (hwf : weatherWfVars rW varsW = true)
    (haf : airQualityWfVars rA varsA = true)
    (hwv : ∀ k, mapGet rW.Current.Variables k = mapGet rW2.Current.Variables k)
    (hwu : ∀ k, mapGet rW.CurrentUnits.Variables k =
                mapGet rW2.CurrentUnits.Variables k)
    (hav : ∀ k, mapGet rA.Current.Variables k = mapGet rA2.Current.Variables k)
    (hau : ∀ k, mapGet rA.CurrentUnits.Variables k =
                mapGet rA2.CurrentUnits.Variables k) :
    metricsOf (mapWeatherVars locName rW varsW).1 =
      varsW.filterMap
        (fun n => (metricsOf (weatherVarStep locName rW n).1).head?) ∧
    metricsOf (mapAirQualityVars locName rA varsA).1 =
      varsA.filterMap
        (fun n => (metricsOf (airQualityVarStep locName rA n).1).head?) ∧
    mapWeatherVars locName rW varsW = mapWeatherVars locName rW2 varsW ∧
    mapAirQualityVars locName rA varsA =
      mapAirQualityVars locName rA2 varsA := by
  refine ⟨mapWeatherVars_metrics locName rW varsW hwf,
          mapAirQualityVars_metrics locName rA varsA haf, ?_, ?_⟩
  · clear hwf
    induction varsW with
    | nil => rfl
    | cons n rest ih =>
      unfold mapWeatherVars
      rw [weatherVarStep_congr locName n rW rW2 (hwv n) (hwu n), ih]
  · clear haf
    induction varsA with
    | nil => rfl
    | cons n rest ih =>
      unfold mapAirQualityVars
      rw [airQualityVarStep_congr locName n rA rA2 (hav n) (hau n), ih]

theorem mapGet_pair_swap (k1 k2 : String) (v1 v2 : Json) (hne : k1 ≠ k2) :
    ∀ k, mapGet [(k1, v1), (k2, v2)] k = mapGet [(k2, v2), (k1, v1)] k := by
  intro k
  unfold mapGet
  by_cases h1 : k1 = k
  · by_cases h2 : k2 = k
    · exact absurd (h1.trans h2.symm) hne
    · simp [List.find?, h1, h2]
  · by_cases h2 : k2 = k
    · simp [List.find?, h1, h2]
    · simp [List.find?, h1, h2]

def c3Resp1 : WeatherResponse :=
  ⟨⟨0, 0, 1, 0, "", "",
    ⟨"", "", [("temperature_2m", Json.str "°F"),
              ("wind_speed_10m", Json.str "mp/h")]⟩,
    ⟨"", 0, [("temperature_2m", Json.num 70),
             ("wind_speed_10m", Json.num 5)]⟩⟩, 0⟩

/-- `c3Resp1` with both internal maps listed in the opposite entry
order. -/
def c3Resp2 : WeatherResponse :=
  ⟨⟨0, 0, 1, 0, "", "",
    ⟨"", "", [("wind_speed_10m", Json.str "mp/h"),
              ("temperature_2m", Json.str "°F")]⟩,
    ⟨"", 0, [("wind_speed_10m", Json.num 5),
             ("temperature_2m", Json.num 70)]⟩⟩, 0⟩

def c3RespA1 : BaseResponse :=
  ⟨0, 0, 1, 0, "", "",
   ⟨"", "", [("pm10", Json.str "μg/m³"), ("ozone", Json.str "μg/m³")]⟩,
   ⟨"", 0, [("pm10", Json.num 3), ("ozone", Json.num 4)]⟩⟩

def c3RespA2 : BaseResponse :=
  ⟨0, 0, 1, 0, "", "",
   ⟨"", "", [("ozone", Json.str "μg/m³"), ("pm10", Json.str "μg/m³")]⟩,
   ⟨"", 0, [("ozone", Json.num 4), ("pm10", Json.num 3)]⟩⟩

theorem c3_emission_order_witness :
    metricsOf (mapWeatherVars "X" c3Resp1
        ["wind_speed_10m", "temperature_2m"]).1 =
      [⟨"openmeteo_weather_wind_speed_10m_mp/h", ["X"], 5⟩,
       ⟨"openmeteo_weather_temperature_2m_fahrenheit", ["X"], 70⟩] ∧
    mapWeatherVars "X" c3Resp1 ["wind_speed_10m", "temperature_2m"] =
      mapWeatherVars "X" c3Resp2 ["wind_speed_10m", "temperature_2m"] ∧
    mapAirQualityVars "X" c3RespA1 ["ozone", "pm10"] =
      mapAirQualityVars "X" c3RespA2 ["ozone", "pm10"] := by
  have h := c3_emission_order "X" c3Resp1 c3Resp2 c3RespA1 c3RespA2
    ["wind_speed_10m", "temperature_2m"] ["ozone", "pm10"]
    (by decide) (by decide)
    (fun k => by
      show mapGet [("temperature_2m", Json.num 70),
                   ("wind_speed_10m", Json.num 5)] k =
           mapGet [("wind_speed_10m", Json.num 5),
                   ("temperature_2m", Json.num 70)] k
      exact mapGet_pair_swap _ _ _ _ (by decide) k)
    (fun k => by
      show mapGet [("temperature_2m", Json.str "°F"),
                   ("wind_speed_10m", Json.str "mp/h")] k =
           mapGet [("wind_speed_10m", Json.str "mp/h"),
                   ("temperature_2m", Json.str "°F")] k
      exact mapGet_pair_swap _ _ _ _ (by decide) k)
    (fun k => by
      show mapGet [("pm10", Json.num 3), ("ozone", Json.num 4)] k =
           mapGet [("ozone", Json.num 4), ("pm10", Json.num 3)] k
      exact mapGet_pair_swap _ _ _ _ (by decide) k)
    (fun k => by
      show mapGet [("pm10", Json.str "μg/m³"),
                   ("ozone", Json.str "μg/m³")] k =
           mapGet [("ozone", Json.str "μg/m³"),
                   ("pm10", Json.str "μg/m³")] k
      exact mapGet_pair_swap _ _ _ _ (by decide) k)
  exact ⟨h.1.trans (by decide), h.2.2.1, h.2.2.2⟩

def c4A : AirQualityConfig := ⟨["pm10"]⟩
def c4Loc : LocationConfig := ⟨"X", 1, 2, "auto", none, some c4A⟩

/-- An air-quality response from which the requested variable `pm10` is
entirely absent (neither a value nor a unit entry). -/
def c4Resp : BaseResponse := ⟨0, 0, 7, 0, "", "", ⟨"", "", []⟩, ⟨"", 0, []⟩⟩

/-- C4, counterexample: a requested variable that is absent from the
air-quality response is not skipped with a warning — the unit lookup's
`.(string)` assertion panics, so the per-variable loop aborts after the
generation-time metric with a panic and no `warnNoValue` event. -/
theorem c4_missing_value_cex :
    airQualityCollect c4Loc c4A (Except.ok c4Resp) =
      ([Event.metric ⟨"openmeteo_airquality_generation_time_ms", ["X"], 7⟩],
       some "interface conversion: interface is not string") ∧
    Event.warnNoValue "pm10" ∉
      (airQualityCollect c4Loc c4A (Except.ok c4Resp)).1 := by
  decide

/-- C4, amended: the weather mapper skips (with a warning naming the
variable, synthesizing no value) every requested variable whose value is
absent or null; the air-quality mapper does so only when the variable's
unit entry is a string and its value is null — when the unit entry is
absent (nil) the `.(string)` assertion panics instead.  Each successful
fetch contributes exactly the generation-time observation followed by the
per-variable events, so every other requested variable with a numeric
value is still emitted. -/
theorem c4_missing_value_amended :
    (∀ (locName : String) (rW : WeatherResponse) (n : String),
      mapGet rW.Current.Variables n = Json.null →
      weatherVarStep locName rW n = ([Event.warnNoValue n], none)) ∧
    (∀ (locName : String) (rA : BaseResponse) (n u : String),
      mapGet rA.CurrentUnits.Variables n = Json.str u →
      mapGet rA.Current.Variables n = Json.null →
      airQualityVarStep locName rA n = ([Event.warnNoValue n], none)) ∧
    (∀ (locName : String) (rA : BaseResponse) (n : String),
      mapGet rA.CurrentUnits.Variables n = Json.null →
      airQualityVarStep locName rA n =
        ([], some "interface conversion: interface is not string")) ∧
    (∀ (loc : LocationConfig) (w : WeatherConfig) (rW : WeatherResponse),
      weatherWfVars rW w.Variables = true →
      weatherCollect loc w (Except.ok rW) =
        (Event.metric ⟨weatherGenerationTimeDesc.fqName, [loc.Name],
           rW.GenerationtimeMs⟩ ::
         (w.Variables.map (fun n => (weatherVarStep loc.Name rW n).1)).flatten,
         none)) ∧
    (∀ (loc : LocationConfig) (a : AirQualityConfig) (rA : BaseResponse),
      airQualityWfVars rA a.Variables = true →
      airQualityCollect loc a (Except.ok rA) =
        (Event.metric ⟨airqualityGenerationTimeDesc.fqName, [loc.Name],
           rA.GenerationtimeMs⟩ ::
         (a.Variables.map
           (fun n => (airQualityVarStep loc.Name rA n).1)).flatten,
         none)) := by
  refine ⟨?_, ?_, ?_, ?_, ?_⟩
  · intro locName rW n hv
    unfold weatherVarStep
    rw [hv]
  · intro locName rA n u hu hv
    unfold airQualityVarStep
    rw [hu, hv]
  · intro locName rA n hu
    unfold airQualityVarStep
    rw [hu]
  · intro loc w rW h
    have hm := mapWeatherVars_wf loc.Name rW w.Variables h
    simp [weatherCollect, hm]
  · intro loc a rA h
    have hm := mapAirQualityVars_wf loc.Name rA a.Variables h
    simp [airQualityCollect, hm]

def c4w2 : WeatherConfig :=
  ⟨"fahrenheit", "mph", "inch", ["temperature_2m", "visibility"]⟩
def c4Loc2 : LocationConfig := ⟨"X", 1, 2, "auto", some c4w2, none⟩

/-- A weather response where `visibility` is null and `temperature_2m`
carries a numeric value (the shape of the specification's own
example). -/
def c4wResp : WeatherResponse :=
  ⟨⟨0, 0, 9, 0, "", "",
    ⟨"", "", [("temperature_2m", Json.str "°F"),
              ("visibility", Json.str "m")]⟩,
    ⟨"", 0, [("temperature_2m", Json.num 21),
             ("visibility", Json.null)]⟩⟩, 0⟩

theorem c4_missing_value_amended_witness :
    weatherVarStep "X" c4wResp "visibility" =
      ([Event.warnNoValue "visibility"], none) ∧
    airQualityVarStep "X" c4Resp "pm10" =
      ([], some "interface conversion: interface is not string") ∧
    weatherCollect c4Loc2 c4w2 (Except.ok c4wResp) =
      ([Event.metric ⟨"openmeteo_weather_generation_time_ms", ["X"], 9⟩,
        Event.metric ⟨"openmeteo_weather_temperature_2m_fahrenheit", ["X"],
          21⟩,
        Event.warnNoValue "visibility"], none) := by
  have h := c4_missing_value_amended
  refine ⟨h.1 "X" c4wResp "visibility" (by decide),
          h.2.2.1 "X" c4Resp "pm10" (by decide), ?_⟩
  exact (h.2.2.2.1 c4Loc2 c4w2 c4wResp (by decide)).trans (by decide)

theorem validateLocations_err :
    ∀ (locs : List LocationConfig) (l : LocationConfig), l ∈ locs →
    isError (locationConfigValidate l) = true →
    isError (validateLocations locs) = true := by
  intro locs
  induction locs with
  | nil => intro l hmem _; cases hmem
  | cons hd tl ih =>
    intro l hmem herr
    rcases List.mem_cons.mp hmem with rfl | htl
    · cases hv : locationConfigValidate l with
      | error e => unfold validateLocations; rw [hv]; rfl
      | ok l' => rw [hv] at herr; simp [isError] at herr
    · cases hv : locationConfigValidate hd with
      | error e => unfold validateLocations; rw [hv]; rfl
      | ok l' =>
        have htlerr := ih l htl herr
        unfold validateLocations
        rw [hv]
        cases hvt : validateLocations tl with
        | error e => rfl
        | ok ls => rw [hvt] at htlerr; simp [isError] at htlerr

/-- C5: `Validate` rejects an empty locations list; a location with an
empty name, a zero latitude, a zero longitude, or neither a weather nor
an air-quality section is rejected with the corresponding error message,
which carries the location's name (the no-name message contains the
location's name trivially, that name being empty); and a single location
whose validation fails rejects the entire configuration. -/
theorem c5_validation_rejects :
    configValidate ⟨[]⟩ =
      Except.error "invalid config, no locations provided" ∧
    (∀ l : LocationConfig, l.Name = "" →
      locationConfigValidate l =
        Except.error "invalid location, no name provided") ∧
    (∀ l : LocationConfig, l.Name ≠ "" → l.Latitude = 0 →
      locationConfigValidate l =
        Except.error ("invalid location, no latitude provided: " ++
          l.Name)) ∧
    (∀ l : LocationConfig, l.Name ≠ "" → l.Latitude ≠ 0 →
      l.Longitude = 0 →
      locationConfigValidate l =
        Except.error ("invalid location, no longitude provided: " ++
          l.Name)) ∧
    (∀ l : LocationConfig, l.Name ≠ "" → l.Latitude ≠ 0 →
      l.Longitude ≠ 0 → l.Weather = none → l.AirQuality = none →
      locationConfigValidate l =
        Except.error
          ("invalid location, no weather or air_quality sections defined: "
            ++ l.Name)) ∧
    (∀ (locs : List LocationConfig) (l : LocationConfig), l ∈ locs →
      isError (locationConfigValidate l) = true →
      isError (configValidate ⟨locs⟩) = true) := by
  refine ⟨rfl, ?_, ?_, ?_, ?_, ?_⟩
  · intro l h
    unfold locationConfigValidate
    rw [h]
    rfl
  · intro l h1 h2
    have hne : l.Name.isEmpty = false := by
      cases he : l.Name.isEmpty
      · rfl
      · exact absurd ((String.isEmpty_iff l.Name).mp he) h1
    simp [locationConfigValidate, hne, h2]
  · intro l h1 h2 h3
    have hne : l.Name.isEmpty = false := by
      cases he : l.Name.isEmpty
      · rfl
      · exact absurd ((String.isEmpty_iff l.Name).mp he) h1
    simp [locationConfigValidate, hne, h2, h3]
  · intro l h1 h2 h3 h4 h5
    have hne : l.Name.isEmpty = false := by
      cases he : l.Name.isEmpty
      · rfl
      · exact absurd ((String.isEmpty_iff l.Name).mp he) h1
    simp [locationConfigValidate, hne, h2, h3, h4, h5]
  · intro locs l hmem herr
    have hv := validateLocations_err locs l hmem herr
    cases locs with
    | nil => cases hmem
    | cons hd tl =>
      unfold configValidate
      cases hvl : validateLocations (hd :: tl) with
      | error e => simp [hvl, isError]
      | ok ls => rw [hvl] at hv; simp [isError] at hv

def c5BadLoc : LocationConfig := ⟨"Spot", 0, 3, "", none, none⟩

theorem c5_validation_rejects_witness :
    locationConfigValidate ⟨"", 0, 0, "", none, none⟩ =
      Except.error "invalid location, no name provided" ∧
    locationConfigValidate c5BadLoc =
      Except.error ("invalid location, no latitude provided: " ++
        "Spot") ∧
    locationConfigValidate ⟨"Spot2", 2, 3, "", none, none⟩ =
      Except.error
        ("invalid location, no weather or air_quality sections defined: "
          ++ "Spot2") ∧
    isError (configValidate ⟨[c5BadLoc]⟩) = true := by
  have h := c5_validation_rejects
  refine ⟨h.2.1 _ rfl, h.2.2.1 c5BadLoc (by decide) (by decide), ?_, ?_⟩
  · exact h.2.2.2.2.1 _ (by decide) (by decide) (by decide) rfl rfl
  · exact h.2.2.2.2.2 [c5BadLoc] c5BadLoc (List.mem_singleton.mpr rfl)
      (by decide)

instance {ε α : Type} [DecidableEq ε] [DecidableEq α] :
    DecidableEq (Except ε α) := fun a b =>
  match a, b with
  | .error e1, .error e2 =>
    if h : e1 = e2 then isTrue (by rw [h])
    else isFalse (by intro hc; cases hc; exact h rfl)
  | .ok a1, .ok a2 =>
    if h : a1 = a2 then isTrue (by rw [h])
    else isFalse (by intro hc; cases hc; exact h rfl)
  | .error _, .ok _ => isFalse (by intro hc; cases hc)
  | .ok _, .error _ => isFalse (by intro hc; cases hc)

/-- A syntactically valid 3xx-reachable response body with one weather
variable. -/
def c6Body : JBody :=
  JBody.obj [("current", JEntry.obj [("time", Json.str "t"),
                                     ("temperature_2m", Json.num 21)]),
             ("current_units", JEntry.obj [("temperature_2m",
                                            Json.str "°C")])]

/-- C6, counterexample: a 304 response — a non-2xx status — is not
turned into `ErrNon2XXResponse`; `doRequest` only rejects statuses at or
above 400, so the fetch proceeds to parsing and returns a parsed
response. -/
theorem c6_status_check_cex :
    getWeatherHttp 304 c6Body =
      GoResult.ok ⟨⟨0, 0, 0, 0, "", "",
        ⟨"", "", [("temperature_2m", Json.str "°C")]⟩,
        ⟨"t", 0, [("temperature_2m", Json.num 21)]⟩⟩, 0⟩ ∧
    doRequest 304 c6Body = Except.ok c6Body ∧
    (304 < 200 ∨ 299 < 304) := by
  decide

/-- C6, amended: a status at or above 400 makes the fetch return
`ErrNon2XXResponse` with no parsed response, while any status below 400
(2xx and 3xx alike) hands the body to parsing. -/
theorem c6_status_check_amended (statusCode : Nat) :
    (400 ≤ statusCode →
      ∀ body : JBody,
        getWeatherHttp statusCode body = GoResult.err ErrNon2XXResponse ∧
        getAirQualityHttp statusCode body =
          GoResult.err ErrNon2XXResponse) ∧
    (statusCode < 400 →
      ∀ body : JBody,
        doRequest statusCode body = Except.ok body ∧
        getWeatherHttp statusCode body =
          (match body with
           | JBody.obj bare => getWeatherFromBare bare
           | JBody.val Json.null => getWeatherFromBare []
           | _ => GoResult.err "json: cannot unmarshal body into map")) := by
  constructor
  · intro h body
    have hd : doRequest statusCode body =
        (Except.error ErrNon2XXResponse : Except String JBody) := by
      unfold doRequest
      rw [if_pos h]
    constructor
    · unfold getWeatherHttp
      rw [hd]
    · unfold getAirQualityHttp
      rw [hd]
  · intro h body
    have hd : doRequest statusCode body = Except.ok body := by
      unfold doRequest
      rw [if_neg (by omega)]
    refine ⟨hd, ?_⟩
    unfold getWeatherHttp
    rw [hd]

theorem c6_status_check_amended_witness :
    getWeatherHttp 500 (JBody.val Json.null) =
      GoResult.err ErrNon2XXResponse ∧
    doRequest 304 c6Body = Except.ok c6Body :=
  ⟨((c6_status_check_amended 500).1 (by decide) (JBody.val Json.null)).1,
   ((c6_status_check_amended 304).2 (by decide) c6Body).1⟩

/-- C7: the Describe phase advertises exactly two static descriptors —
location-info and the weather generation-time — not three: the
air-quality generation-time descriptor, although it exists and its
metric is emitted during Collect, is never sent on the describe
channel. -/
theorem c7_describe_two_descriptors :
    openMeteoDescribe = [infoDesc, weatherGenerationTimeDesc] ∧
    airqualityGenerationTimeDesc ∉ openMeteoDescribe ∧
    infoDesc.fqName = "openmeteo_location_info" ∧
    weatherGenerationTimeDesc.fqName =
      "openmeteo_weather_generation_time_ms" ∧
    airqualityGenerationTimeDesc.fqName =
      "openmeteo_airquality_generation_time_ms" ∧
    openMeteoDescribe.length = 2 := by
  decide

def c9W : WeatherConfig := ⟨"", "", "", ["temperature_2m"]⟩
def c9Loc : LocationConfig := ⟨"Home", 1, 2, "", some c9W, none⟩
def c9Config : Config := ⟨[c9Loc]⟩
def c9WFilled : WeatherConfig := ⟨"fahrenheit", "mph", "inch",
  ["temperature_2m"]⟩

/-- What `Config.Validate` actually leaves behind for `c9Config`: the
unit defaults persist (they are written through the shared `Weather`
pointer) but the timezone stays blank. -/
def c9After : Config := ⟨[⟨"Home", 1, 2, "", some c9WFilled, none⟩]⟩

/-- C9: the location-level `Validate` does fill a blank timezone with
"auto", but `Config.Validate` ranges over its locations by value, so the
fill lands in a discarded copy: the accepted configuration keeps the
blank timezone (it is filled zero times, not once), contradicting the
code's own comment; the pointer-backed unit defaults do persist, and a
second `Validate` of the accepted configuration succeeds and changes
nothing. -/
theorem c9_timezone_default_lost :
    locationConfigValidate c9Loc =
      Except.ok ⟨"Home", 1, 2, "auto", some c9WFilled, none⟩ ∧
    configValidate c9Config = Except.ok c9After ∧
    c9After.Locations.map (fun l => l.Timezone) = [""] ∧
    configValidate c9After = Except.ok c9After := by
  decide

theorem openMeteoCollect_cons (l : LocationConfig)
    (ls : List LocationConfig)
    (fetchW : LocationConfig → Except String WeatherResponse)
    (fetchA : LocationConfig → Except String BaseResponse)
    (evs : List Event) (hc : locCollect fetchW fetchA l = (evs, none)) :
    openMeteoCollect (l :: ls) fetchW fetchA =
      (evs ++ (openMeteoCollect ls fetchW fetchA).1,
       (openMeteoCollect ls fetchW fetchA).2) := by
  conv_lhs => unfold openMeteoCollect
  rw [hc]

theorem openMeteoCollect_append (locs1 locs2 : List LocationConfig)
    (fetchW : LocationConfig → Except String WeatherResponse)
    (fetchA : LocationConfig → Except String BaseResponse)
    (h1 : (openMeteoCollect locs1 fetchW fetchA).2 = none) :
    openMeteoCollect (locs1 ++ locs2) fetchW fetchA =
      ((openMeteoCollect locs1 fetchW fetchA).1 ++
        (openMeteoCollect locs2 fetchW fetchA).1,
       (openMeteoCollect locs2 fetchW fetchA).2) := by
  induction locs1 with
  | nil => simp [openMeteoCollect]
  | cons l ls ih =>
    rcases hc : locCollect fetchW fetchA l with ⟨evs, p⟩
    cases p with
    | some q =>
      have hbad : openMeteoCollect (l :: ls) fetchW fetchA =
          (evs, some q) := by
        conv_lhs => unfold openMeteoCollect
        rw [hc]
      rw [hbad] at h1
      simp at h1
    | none =>
      have h0 := openMeteoCollect_cons l ls fetchW fetchA evs hc
      have h0x := openMeteoCollect_cons l (ls ++ locs2) fetchW fetchA evs hc
      rw [h0] at h1
      dsimp at h1
      have hrec := ih h1
      rw [show (l :: ls) ++ locs2 = l :: (ls ++ locs2) from rfl, h0x,
          hrec, h0]
      simp [List.append_assoc]

def c8wA : WeatherConfig :=
  ⟨"fahrenheit", "mph", "inch", ["temperature_2m", "rain"]⟩
def c8LocA : LocationConfig := ⟨"A", 1, 2, "auto", some c8wA, none⟩
def c8LocB : LocationConfig :=
  ⟨"B", 1, 2, "auto", some ⟨"fahrenheit", "mph", "inch", ["rain"]⟩, none⟩

/-- A weather response whose `temperature_2m` value is present but a
string — the type-mismatch case — while `rain` carries a number. -/
def c8RespA : WeatherResponse :=
  ⟨⟨0, 0, 3, 0, "", "",
    ⟨"", "", [("temperature_2m", Json.str "°C"), ("rain", Json.str "mm")]⟩,
    ⟨"", 0, [("temperature_2m", Json.str "oops"),
             ("rain", Json.num 1)]⟩⟩, 0⟩

def c8RespB : WeatherResponse :=
  ⟨⟨0, 0, 8, 0, "", "",
    ⟨"", "", [("rain", Json.str "mm")]⟩,
    ⟨"", 0, [("rain", Json.num 2)]⟩⟩, 0⟩

def c8FetchW (loc : LocationConfig) : Except String WeatherResponse :=
  if loc.Name = "A" then .ok c8RespA else .ok c8RespB

def c8FetchA (_ : LocationConfig) : Except String BaseResponse :=
  .error "unused"

def c8Locs : List LocationConfig := [c8LocA, c8LocB]

/-- C8, counterexample: a present-but-non-numeric value does not confine
the failure to that observation — the `value.(float64)` assertion panic
escapes `Collect`, so the remaining variable (`rain`) of the same
location and the entire second location (including its location-info
gauge) are never emitted. -/
theorem c8_panic_aborts_cex :
    openMeteoCollect c8Locs c8FetchW c8FetchA =
      ([Event.metric ⟨"openmeteo_location_info",
          ["A", "1.000000", "2.000000", "auto"], 1⟩,
        Event.metric ⟨"openmeteo_weather_generation_time_ms", ["A"], 3⟩],
       some "interface conversion: interface is not float64") ∧
    Event.metric ⟨"openmeteo_location_info",
      ["B", "1.000000", "2.000000", "auto"], 1⟩ ∉
      (openMeteoCollect c8Locs c8FetchW c8FetchA).1 ∧
    Event.metric ⟨"openmeteo_weather_rain_mm", ["A"], 1⟩ ∉
      (openMeteoCollect c8Locs c8FetchW c8FetchA).1 := by
  decide

/-- C8, amended: a requested variable whose value is present but not a
float64 panics the per-variable loop, and the panic aborts the whole
collection cycle: the events of the panic-free prefix of locations and
of the panicking location up to the assertion are emitted, nothing after
them is, and the collector ends in a panic instead of returning
normally. -/
theorem c8_panic_aborts_amended (locs1 locs2 : List LocationConfig)
    (loc : LocationConfig)
    (fetchW : LocationConfig → Except String WeatherResponse)
    (fetchA : LocationConfig → Except String BaseResponse) (msg : String)
    (h1 : (openMeteoCollect locs1 fetchW fetchA).2 = none)
    (h2 : (locCollect fetchW fetchA loc).2 = some msg) :
    openMeteoCollect (locs1 ++ loc :: locs2) fetchW fetchA =
      ((openMeteoCollect locs1 fetchW fetchA).1 ++
        (locCollect fetchW fetchA loc).1, some msg) ∧
    (∀ (locName n s : String) (rW : WeatherResponse),
      mapGet rW.Current.Variables n = Json.str s →
      weatherVarStep locName rW n =
        ([], some "interface conversion: interface is not float64")) := by
  constructor
  · have htail : openMeteoCollect (loc :: locs2) fetchW fetchA =
        ((locCollect fetchW fetchA loc).1, some msg) := by
      unfold openMeteoCollect
      rcases hc : locCollect fetchW fetchA loc with ⟨evs, p⟩
      rw [hc] at h2
      dsimp at h2
      subst h2
      rfl
    rw [openMeteoCollect_append locs1 (loc :: locs2) fetchW fetchA h1,
        htail]
  · intro locName n s rW hv
    unfold weatherVarStep
    rw [hv]

theorem c8_panic_aborts_amended_witness :
    openMeteoCollect ([c8LocB] ++ c8LocA :: [c8LocB]) c8FetchW c8FetchA =
      ((openMeteoCollect [c8LocB] c8FetchW c8FetchA).1 ++
        (locCollect c8FetchW c8FetchA c8LocA).1,
       some "interface conversion: interface is not float64") ∧
    weatherVarStep "A" c8RespA "temperature_2m" =
      ([], some "interface conversion: interface is not float64") := by
  have h := c8_panic_aborts_amended [c8LocB] [c8LocB] c8LocA c8FetchW
    c8FetchA "interface conversion: interface is not float64"
    (by decide) (by decide)
  exact ⟨h.1, h.2 "A" "temperature_2m" "oops" c8RespA (by decide)⟩

/-- A top-level field value that is present (not absent, not JSON null)
but not an object. -/
def presentNonObject (x : JEntry) : Bool :=
  match x with
  | JEntry.obj _ => false
  | JEntry.val Json.null => false
  | _ => true

theorem decodeValuesField_err_of_nonobj (bare : List (String × JEntry))
    (h : presentNonObject (bareGet bare "current") = true) :
    decodeValuesField bare =
      Except.error "json: cannot unmarshal field current into struct" := by
  unfold decodeValuesField
  unfold presentNonObject at h
  cases hc : bareGet bare "current" with
  | val v =>
    rw [hc] at h
    cases v <;> simp at h ⊢
  | obj m => rw [hc] at h; simp at h
  | arr es => rfl

theorem decodeWeatherTyped_err_of_values (bare : List (String × JEntry))
    (e : String) (hv : decodeValuesField bare = Except.error e) :
    ∃ e2, decodeWeatherTyped bare = Except.error e2 := by
  unfold decodeWeatherTyped
  cases h1 : decodeFloatField bare "latitude" with
  | error e1 => exact ⟨e1, rfl⟩
  | ok lat =>
  cases h2 : decodeFloatField bare "longitude" with
  | error e1 => exact ⟨e1, rfl⟩
  | ok lon =>
  cases h3 : decodeFloatField bare "generationtime_ms" with
  | error e1 => exact ⟨e1, rfl⟩
  | ok gen =>
  cases h4 : decodeIntField bare "utc_offset_seconds" with
  | error e1 => exact ⟨e1, rfl⟩
  | ok utc =>
  cases h5 : decodeStringField bare "timezone" with
  | error e1 => exact ⟨e1, rfl⟩
  | ok tz =>
  cases h6 : decodeStringField bare "timezone_abbreviation" with
  | error e1 => exact ⟨e1, rfl⟩
  | ok tza =>
  cases h7 : decodeUnitsField bare with
  | error e1 => exact ⟨e1, rfl⟩
  | ok cu =>
  rw [hv]
  exact ⟨e, rfl⟩

theorem decodeBaseTyped_err_of_values (bare : List (String × JEntry))
    (e : String) (hv : decodeValuesField bare = Except.error e) :
    ∃ e2, decodeBaseTyped bare = Except.error e2 := by
  unfold decodeBaseTyped
  cases h1 : decodeFloatField bare "latitude" with
  | error e1 => exact ⟨e1, rfl⟩
  | ok lat =>
  cases h2 : decodeFloatField bare "longitude" with
  | error e1 => exact ⟨e1, rfl⟩
  | ok lon =>
  cases h3 : decodeFloatField bare "generationtime_ms" with
  | error e1 => exact ⟨e1, rfl⟩
  | ok gen =>
  cases h4 : decodeIntField bare "utc_offset_seconds" with
  | error e1 => exact ⟨e1, rfl⟩
  | ok utc =>
  cases h5 : decodeStringField bare "timezone" with
  | error e1 => exact ⟨e1, rfl⟩
  | ok tz =>
  cases h6 : decodeStringField bare "timezone_abbreviation" with
  | error e1 => exact ⟨e1, rfl⟩
  | ok tza =>
  cases h7 : decodeUnitsField bare with
  | error e1 => exact ⟨e1, rfl⟩
  | ok cu =>
  rw [hv]
  exact ⟨e, rfl⟩

/-- C10, amended: when the decoded body's `current` field is absent or
JSON null and the typed decode succeeds, the unchecked
`.(map[string]interface{})` assertion panics in both `GetWeather` and
`GetAirQuality` (and likewise for an absent/null `current_units` once
`current` has a first non-omitted entry); but when `current` is present
as a non-object, non-null value, the strongly-typed `json.Unmarshal`
fails first, so the call returns that parse error — an error return, not
a panic and not `ErrNon2XXResponse`. -/
theorem c10_current_assertion_amended :
    (∀ (bare : List (String × JEntry)) (resp : WeatherResponse),
      decodeWeatherTyped bare = Except.ok resp →
      bareGet bare "current" = JEntry.val Json.null →
      getWeatherFromBare bare =
        GoResult.crash "interface conversion: interface is not map") ∧
    (∀ (bare : List (String × JEntry)) (resp : BaseResponse),
      decodeBaseTyped bare = Except.ok resp →
      bareGet bare "current" = JEntry.val Json.null →
      getAirQualityFromBare bare =
        GoResult.crash "interface conversion: interface is not map") ∧
    (∀ bare : List (String × JEntry),
      presentNonObject (bareGet bare "current") = true →
      (∃ e, getWeatherFromBare bare = GoResult.err e) ∧
      ∃ e, getAirQualityFromBare bare = GoResult.err e) ∧
    (∀ (bare : List (String × JEntry)) (resp : WeatherResponse)
      (name : String) (v : Json) (rest : List (String × Json)),
      decodeWeatherTyped bare = Except.ok resp →
      bareGet bare "current" = JEntry.obj ((name, v) :: rest) →
      bareGet bare "current_units" = JEntry.val Json.null →
      name ≠ "time" → name ≠ "interval" →
      getWeatherFromBare bare =
        GoResult.crash "interface conversion: interface is not map") := by
  refine ⟨?_, ?_, ?_, ?_⟩
  · intro bare resp hty hcur
    unfold getWeatherFromBare
    rw [hty, hcur]
  · intro bare resp hty hcur
    unfold getAirQualityFromBare
    rw [hty, hcur]
  · intro bare h
    have hv := decodeValuesField_err_of_nonobj bare h
    obtain ⟨e2, hw⟩ := decodeWeatherTyped_err_of_values bare _ hv
    obtain ⟨e3, hb⟩ := decodeBaseTyped_err_of_values bare _ hv
    constructor
    · exact ⟨e2, by unfold getWeatherFromBare; rw [hw]⟩
    · exact ⟨e3, by unfold getAirQualityFromBare; rw [hb]⟩
  · intro bare resp name v rest hty hcur hcu hn1 hn2
    unfold getWeatherFromBare
    rw [hty, hcur]
    simp only [flattenCurrent]
    rw [if_neg (by simp [hn1, hn2]), hcu]

/-- The decoded body of an upstream error reply such as
`{"error": true, "reason": "..."}`: valid JSON, no `current` field. -/
def c10BareNull : List (String × JEntry) :=
  [("error", JEntry.val (Json.bool true)),
   ("reason", JEntry.val (Json.str "invalid request"))]

/-- A decoded body whose `current` field is present but a string. -/
def c10Bare : List (String × JEntry) :=
  [("current", JEntry.val (Json.str "service unavailable"))]

/-- C10, counterexample: with a 2xx status and a body whose `current`
field is present but not a JSON object, `GetWeather`/`GetAirQuality` do
not panic — the strongly-typed unmarshal fails first and the call
returns that parse error. -/
theorem c10_current_assertion_cex :
    getWeatherHttp 200 (JBody.obj c10Bare) =
      GoResult.err "json: cannot unmarshal field current into struct" ∧
    getAirQualityHttp 200 (JBody.obj c10Bare) =
      GoResult.err "json: cannot unmarshal field current into struct" := by
  decide

theorem c10_current_assertion_amended_witness :
    getWeatherFromBare c10BareNull =
      GoResult.crash "interface conversion: interface is not map" ∧
    getAirQualityFromBare c10BareNull =
      GoResult.crash "interface conversion: interface is not map" ∧
    (∃ e, getWeatherFromBare c10Bare = GoResult.err e) := by
  have h := c10_current_assertion_amended
  refine ⟨h.1 c10BareNull ⟨⟨0, 0, 0, 0, "", "", ⟨"", "", []⟩,
      ⟨"", 0, []⟩⟩, 0⟩ (by decide) (by decide),
    h.2.1 c10BareNull ⟨0, 0, 0, 0, "", "", ⟨"", "", []⟩, ⟨"", 0, []⟩⟩
      (by decide) (by decide),
    (h.2.2.1 c10Bare (by decide)).1⟩
